import Mathlib

/-!
Verification of the keyframe-insertion subsystem of the animation module
(`keyframing.cc`, together with declarations from `ANIM_action.hh`).

The embedding translates the C++ sources into executable Lean definitions:
  * machine floats become rationals (`ℚ`),
  * the `SingleKeyingResult` enum and the `CombinedKeyingResult` histogram
    are translated directly,
  * F-Curves become lists of keyframe points plus the flags the code reads,
  * the legacy `Action` curve storage becomes an association list keyed by
    (RNA path, array index),
  * external collaborators (RNA path resolution, value extraction, the NLA
    remapper) become explicit inputs, since their outputs are what the code
    under verification consumes.

Functions of this repository that are only declared (not defined) in the
sources — `insert_vert_fcurve`, `action_fcurve_find` / `action_fcurve_ensure`,
`BKE_fcurve_get_cycle_type`, `BKE_fcurve_is_keyframable`,
`KeyframeStrip::keyframe_insert` — are modelled from the specification text
and are marked as such in their doc comments.
-/

/-- The per-channel keying outcome codes, in the order used by the
`result_counter` array and by `generate_reports` (`SUCCESS` is index 0,
as the `static_assert` in `has_errors` requires). -/
inductive SingleKeyingResult where
  | SUCCESS
  | UNKNOWN_FAILURE
  | CANNOT_CREATE_FCURVE
  | FCURVE_NOT_KEYFRAMEABLE
  | NO_KEY_NEEDED
  | UNABLE_TO_INSERT_TO_NLA_STACK
  | ID_NOT_EDITABLE
  | ID_NOT_ANIMATABLE
  | CANNOT_RESOLVE_PATH
  | NO_VALID_LAYER
  | NO_VALID_STRIP
  | NO_VALID_BINDING
deriving DecidableEq, Fintype

open SingleKeyingResult

/-- All twelve outcome kinds, in enum order. -/
def allKeyingResults : List SingleKeyingResult :=
  [SUCCESS, UNKNOWN_FAILURE, CANNOT_CREATE_FCURVE, FCURVE_NOT_KEYFRAMEABLE,
   NO_KEY_NEEDED, UNABLE_TO_INSERT_TO_NLA_STACK, ID_NOT_EDITABLE,
   ID_NOT_ANIMATABLE, CANNOT_RESOLVE_PATH, NO_VALID_LAYER, NO_VALID_STRIP,
   NO_VALID_BINDING]

/-- The non-success outcome kinds, in enum order; this is the index range
`1 .. size-1` that `has_errors` and the report generator iterate over. -/
def errorKeyingResults : List SingleKeyingResult :=
  [UNKNOWN_FAILURE, CANNOT_CREATE_FCURVE, FCURVE_NOT_KEYFRAMEABLE,
   NO_KEY_NEEDED, UNABLE_TO_INSERT_TO_NLA_STACK, ID_NOT_EDITABLE,
   ID_NOT_ANIMATABLE, CANNOT_RESOLVE_PATH, NO_VALID_LAYER, NO_VALID_STRIP,
   NO_VALID_BINDING]

/-- `CombinedKeyingResult`: a fixed-size histogram over outcome kinds
(`std::array<int, N> result_counter` in the source, here a total function). -/
structure CombinedKeyingResult where
  result_counter : SingleKeyingResult → Int

/-- The default constructor: `result_counter.fill(0)`. -/
def CombinedKeyingResult.empty : CombinedKeyingResult :=
  ⟨fun _ => 0⟩

/-- `CombinedKeyingResult::add`: `result_counter[int(result)] += count`. -/
def CombinedKeyingResult.add (c : CombinedKeyingResult) (result : SingleKeyingResult)
    (count : Int) : CombinedKeyingResult :=
  ⟨fun k => if k = result then c.result_counter k + count else c.result_counter k⟩

/-- `add` with the default count of 1, as used by the orchestrators. -/
def CombinedKeyingResult.add1 (c : CombinedKeyingResult)
    (result : SingleKeyingResult) : CombinedKeyingResult :=
  c.add result 1

/-- `CombinedKeyingResult::merge`: pointwise addition of the counters. -/
def CombinedKeyingResult.merge (c other : CombinedKeyingResult) : CombinedKeyingResult :=
  ⟨fun k => c.result_counter k + other.result_counter k⟩

/-- `CombinedKeyingResult::get_count`. -/
def CombinedKeyingResult.get_count (c : CombinedKeyingResult)
    (result : SingleKeyingResult) : Int :=
  c.result_counter result

/-- `CombinedKeyingResult::has_errors`: true iff some non-success counter is
positive (the loop starts at index 1, skipping `SUCCESS`). -/
def CombinedKeyingResult.has_errors (c : CombinedKeyingResult) : Bool :=
  errorKeyingResults.any fun k => decide (0 < c.result_counter k)

/-- Total number of recorded outcomes, over all kinds. -/
def CombinedKeyingResult.total (c : CombinedKeyingResult) : Int :=
  (allKeyingResults.map c.result_counter).sum

/-- An abstraction of one report emitted by `generate_reports`: the severity
and the information the formatted message carries (which error kinds, with
which counts).  The fixed header line of the combined message is kept as the
string in the source. -/
inductive Report where
  | warnNoKeysNoErrors
  | warnUnhandled
  | errSingle (kind : SingleKeyingResult) (count : Int)
  | errCombined (header : String) (messages : List (SingleKeyingResult × Int))
deriving DecidableEq

/-- The header line of the combined error message. -/
def combinedReportHeader : String := "Inserting keyframes failed:"

/-- The `errors` vector built by the sequence of eleven `if` blocks in
`generate_reports`: one entry per error kind with a positive count, in enum
order, each carrying its count (which the formatted message mentions). -/
def CombinedKeyingResult.errorMessages (c : CombinedKeyingResult) :
    List (SingleKeyingResult × Int) :=
  (if 0 < c.get_count UNKNOWN_FAILURE then
    [(UNKNOWN_FAILURE, c.get_count UNKNOWN_FAILURE)] else []) ++
  (if 0 < c.get_count CANNOT_CREATE_FCURVE then
    [(CANNOT_CREATE_FCURVE, c.get_count CANNOT_CREATE_FCURVE)] else []) ++
  (if 0 < c.get_count FCURVE_NOT_KEYFRAMEABLE then
    [(FCURVE_NOT_KEYFRAMEABLE, c.get_count FCURVE_NOT_KEYFRAMEABLE)] else []) ++
  (if 0 < c.get_count NO_KEY_NEEDED then
    [(NO_KEY_NEEDED, c.get_count NO_KEY_NEEDED)] else []) ++
  (if 0 < c.get_count UNABLE_TO_INSERT_TO_NLA_STACK then
    [(UNABLE_TO_INSERT_TO_NLA_STACK, c.get_count UNABLE_TO_INSERT_TO_NLA_STACK)] else []) ++
  (if 0 < c.get_count ID_NOT_EDITABLE then
    [(ID_NOT_EDITABLE, c.get_count ID_NOT_EDITABLE)] else []) ++
  (if 0 < c.get_count ID_NOT_ANIMATABLE then
    [(ID_NOT_ANIMATABLE, c.get_count ID_NOT_ANIMATABLE)] else []) ++
  (if 0 < c.get_count CANNOT_RESOLVE_PATH then
    [(CANNOT_RESOLVE_PATH, c.get_count CANNOT_RESOLVE_PATH)] else []) ++
  (if 0 < c.get_count NO_VALID_LAYER then
    [(NO_VALID_LAYER, c.get_count NO_VALID_LAYER)] else []) ++
  (if 0 < c.get_count NO_VALID_STRIP then
    [(NO_VALID_STRIP, c.get_count NO_VALID_STRIP)] else []) ++
  (if 0 < c.get_count NO_VALID_BINDING then
    [(NO_VALID_BINDING, c.get_count NO_VALID_BINDING)] else [])

/-- `CombinedKeyingResult::generate_reports`, translated branch for branch:
no errors and no successes yields the single "no keys inserted" warning; an
empty error list (reachable with successes only) yields the fallback
"unhandled error" warning; a single error message is reported alone; two or
more are combined under a fixed header line. -/
def CombinedKeyingResult.generate_reports (c : CombinedKeyingResult) : List Report :=
  if ¬c.has_errors ∧ c.get_count SUCCESS = 0 then
    [Report.warnNoKeysNoErrors]
  else
    match c.errorMessages with
    | [] => [Report.warnUnhandled]
    | [e] => [Report.errSingle e.1 e.2]
    | es => [Report.errCombined combinedReportHeader es]

/-- `eBezTriple_KeyframeType`: the keyframe-type tag stored on a point. -/
inductive KeyframeType where
  | keyframe | breakdown | movehold | extreme | jitter | generated
deriving DecidableEq, Inhabited

/-- One keyframe point of an F-Curve (`BezTriple`): the control coordinate
`vec[1]` (time, value) plus the keyframe-type tag.  Handle coordinates are
not observed by any verified property and are omitted. -/
structure BezTriple where
  time : ℚ
  value : ℚ
  keytype : KeyframeType := KeyframeType.keyframe
deriving DecidableEq, Inhabited

/-- The extrapolation modes of a Cycles modifier side
(`FCM_EXTRAPOLATE_CYCLIC`, `FCM_EXTRAPOLATE_CYCLIC_OFFSET`, and the
mirrored/other modes collapsed into `other`). -/
inductive FModExtrapMode where
  | cyclic | cyclicOffset | other
deriving DecidableEq

/-- `FMod_Cycles`: the data of a Cycles F-Modifier, as read by the cycle
remapper (`before_mode` / `after_mode`). -/
structure FModCycles where
  before_mode : FModExtrapMode
  after_mode : FModExtrapMode
deriving DecidableEq

/-- `eFCU_Cycle_Type`. -/
inductive eFCU_Cycle_Type where
  | FCU_CYCLE_NONE | FCU_CYCLE_PERFECT | FCU_CYCLE_OFFSET
deriving DecidableEq

open eFCU_Cycle_Type

/-- An F-Curve: the ordered keyframe points plus the flags the keyframing
code reads.  `cycles_mod` is the curve's first F-Modifier when that modifier
is of the Cycles type (`fcu->modifiers.first`), `none` otherwise. -/
structure FCurve where
  bezt : List BezTriple
  locked : Bool := false
  sampled : Bool := false
  int_values : Bool := false
  discrete_values : Bool := false
  cycles_mod : Option FModCycles := none
deriving DecidableEq

/-- Modelled from the spec: `BKE_fcurve_get_cycle_type` is only declared in
the sources.  The spec says the remapper determines a cycle type
(none / regular / offset-accumulating) from the curve's cycle modifier, and
treats a curve without one as non-cyclic.  A modifier whose two extrapolation
modes are both plain-cyclic gives the strict periodic type; cyclic modes with
an offset side give the offset-accumulating type. -/
def BKE_fcurve_get_cycle_type (fcu : FCurve) : eFCU_Cycle_Type :=
  match fcu.cycles_mod with
  | none => FCU_CYCLE_NONE
  | some m =>
    if m.before_mode = FModExtrapMode.cyclic ∧ m.after_mode = FModExtrapMode.cyclic then
      FCU_CYCLE_PERFECT
    else if (m.before_mode = FModExtrapMode.cyclic ∨ m.before_mode = FModExtrapMode.cyclicOffset)
        ∧ (m.after_mode = FModExtrapMode.cyclic ∨ m.after_mode = FModExtrapMode.cyclicOffset) then
      FCU_CYCLE_OFFSET
    else FCU_CYCLE_NONE

/-- Modelled from the spec: `BKE_fcurve_is_keyframable` is only declared in
the sources; the spec gives the "keyframeable" predicate as false when the
curve is sampled or locked. -/
def BKE_fcurve_is_keyframable (fcu : FCurve) : Bool :=
  !(fcu.locked || fcu.sampled)

/-- `remap_cyclic_keyframe_location`: move the candidate insertion point
into the main cycle range.  Returns the cycle type together with the
(possibly folded) time and value; the C++ returns the type and updates
`*px` / `*py` in place. -/
def remap_cyclic_keyframe_location (fcu : FCurve) (px py : ℚ) :
    eFCU_Cycle_Type × ℚ × ℚ :=
  if fcu.bezt.length < 2 then (FCU_CYCLE_NONE, px, py)
  else
    let ty := BKE_fcurve_get_cycle_type fcu
    if ty = FCU_CYCLE_NONE then (FCU_CYCLE_NONE, px, py)
    else
      let first := fcu.bezt.headD default
      let last := fcu.bezt.getLastD default
      let start := first.time
      let stop := last.time
      if stop ≤ start then (FCU_CYCLE_NONE, px, py)
      else if px < start ∨ stop < px then
        let period := stop - start
        let step : ℤ := ⌊(px - start) / period⌋
        let px' := px - (step : ℚ) * period
        let py' :=
          if ty = FCU_CYCLE_OFFSET then
            match fcu.cycles_mod with
            | some data =>
              let mode := if 0 ≤ step then data.after_mode else data.before_mode
              if mode = FModExtrapMode.cyclicOffset then
                py - (step : ℚ) * (last.value - first.value)
              else py
            | none => py
          else py
        (ty, px', py')
      else (ty, px, py)

/-- The point-insertion settings handed to the curve write
(`KeyframeSettings`); handle and interpolation choices are not observed by
any verified property, so only the keyframe-type tag is kept. -/
structure KeyframeSettings where
  keyframe_type : KeyframeType
deriving DecidableEq

/-- Flags of `eInsertKeyFlags`, one boolean per bit used by this code. -/
structure InsertKeyFlags where
  needed : Bool := false
  matrix : Bool := false
  replace : Bool := false
  available : Bool := false
  cycle_aware : Bool := false
  no_userpref : Bool := false
deriving DecidableEq

/-- `key_insertion_may_create_fcurve`: creation of missing F-Curves is
forbidden under the replace-only or available-only policies. -/
def key_insertion_may_create_fcurve (insert_key_flags : InsertKeyFlags) : Bool :=
  !(insert_key_flags.replace || insert_key_flags.available)

/-- Ordered insertion of one point into a point list sorted by time; a point
at an equal time is overwritten rather than duplicated. -/
def fcurve_insert_point : List BezTriple → BezTriple → List BezTriple
  | [], p => [p]
  | q :: qs, p =>
    if p.time < q.time then p :: q :: qs
    else if p.time = q.time then p :: qs
    else q :: fcurve_insert_point qs p

/-- Modelled from the spec: `insert_vert_fcurve` is only declared in the
sources.  The spec says the write constructs the point from the settings and
inserts it preserving ordering by time, overwriting at an equal time. -/
def insert_vert_fcurve (fcu : FCurve) (position : ℚ × ℚ)
    (settings : KeyframeSettings) (_flag : InsertKeyFlags) :
    SingleKeyingResult × FCurve :=
  (SUCCESS,
   { fcu with
     bezt := fcurve_insert_point fcu.bezt
       ⟨position.1, position.2, settings.keyframe_type⟩ })

/-- `insert_keyframe_value`: the curve-level keyframe write.  Fails without
touching the curve when it is not keyframeable; under cycle-aware insertion
first folds the coordinates through the cycle remapper and drops the
cycle-aware flag unless the cycle is strictly periodic; then inserts. -/
def insert_keyframe_value (fcu : FCurve) (cfra curval : ℚ)
    (keytype : KeyframeType) (flag : InsertKeyFlags) :
    SingleKeyingResult × FCurve :=
  if ¬BKE_fcurve_is_keyframable fcu then (FCURVE_NOT_KEYFRAMEABLE, fcu)
  else
    let state :=
      if flag.cycle_aware then
        let r := remap_cyclic_keyframe_location fcu cfra curval
        if r.1 ≠ FCU_CYCLE_PERFECT then
          (r.2.1, r.2.2, { flag with cycle_aware := false })
        else (r.2.1, r.2.2, flag)
      else (cfra, curval, flag)
    insert_vert_fcurve fcu (state.1, state.2.1) ⟨keytype⟩ state.2.2


/-- The checked form of the `BitVector` element read
`successful_remaps[index]`: `none` when the index is outside `[0, size)`,
where the C++ read is out of bounds (the vector's element operator asserts
the bound in debug builds; release builds read out of bounds). -/
def bitvector_get (mask : List Bool) (index : Int) : Option Bool :=
  if h : 0 ≤ index ∧ index.toNat < mask.length then some (mask.get ⟨index.toNat, h.2⟩)
  else none

/-- The value-and-mask reads of `insert_keyframe_direct` after the NLA
remap: `current_value` is read from `values[index]` only under the explicit
guard `index >= 0 && index < values.size()` (else it stays 0.0), and then
`successful_remaps[index]` is read with no guard at all.  `index` is the
curve's `array_index`; `values` are the extracted property values and the
bitmask was constructed with `values.size()` entries. -/
def insert_keyframe_direct_core (array_index : Int) (values : List ℚ)
    (successful_remaps : List Bool) : ℚ × Option Bool :=
  let current_value :=
    if 0 ≤ array_index ∧ array_index < (values.length : Int) then
      values.getD array_index.toNat 0
    else 0
  (current_value, bitvector_get successful_remaps array_index)

/-- The property-type classification used by
`update_autoflags_fcurve_direct` (`RNA_property_type`): float, int, or any
other (enum/boolean/...) type. -/
inductive PropType where
  | float | int | other
deriving DecidableEq

/-- `update_autoflags_fcurve_direct`: clear the integer/discrete flags, then
set them from the property type. -/
def update_autoflags_fcurve_direct (fcu : FCurve) (prop : PropType) : FCurve :=
  let fcu := { fcu with int_values := false, discrete_values := false }
  match prop with
  | PropType.float => fcu
  | PropType.int => { fcu with int_values := true }
  | PropType.other => { fcu with int_values := true, discrete_values := true }

/-- A fresh F-Curve as created by the channel resolver: no points, no flags,
no modifiers. -/
def newFCurve : FCurve := ⟨[], false, false, false, false, none⟩

/-- The legacy flat curve storage of an Action: curves keyed by
(RNA path, array index), plus the frame range and the cyclic flag that
`BKE_action_is_cyclic` reads (that helper is external to the sources and is
modelled as the stored flag). -/
structure bAction where
  curves : List ((String × Int) × FCurve)
  frame_start : ℚ := 0
  frame_end : ℚ := 0
  cyclic : Bool := false
deriving DecidableEq

/-- Modelled from the spec: `action_fcurve_find` is only declared in the
sources; the spec's channel resolver `find` returns the existing Curve for
(path, index) or none, and never creates. -/
def action_fcurve_find (act : bAction) (rna_path : String) (array_index : Int) :
    Option FCurve :=
  (act.curves.find? fun e => decide (e.1 = (rna_path, array_index))).map (fun e => e.2)

/-- Modelled from the spec: `action_fcurve_ensure` is only declared in the
sources; the spec's channel resolver `ensure` returns the Curve for
(path, index), creating exactly one curve with zero points when it is
missing.  The group label is advisory display metadata and is not part of
the modelled storage. -/
def action_fcurve_ensure (act : bAction) (_group : Option String)
    (rna_path : String) (array_index : Int) : FCurve × bAction :=
  match action_fcurve_find act rna_path array_index with
  | some fcu => (fcu, act)
  | none =>
    (newFCurve,
     { act with curves := act.curves ++ [((rna_path, array_index), newFCurve)] })

/-- Write back the curve stored under a key (the C++ mutates the curve in
place through the pointer returned by the resolver). -/
def bAction.setCurve (act : bAction) (key : String × Int) (fcu : FCurve) : bAction :=
  { act with curves := act.curves.map fun e => if e.1 = key then (key, fcu) else e }

/-- `make_new_fcurve_cyclic`: on a curve holding exactly one (newly added)
keyframe and an action range spanning at least 0.1, fold the keyframe into
the range, duplicate it one period later, and add a Cycles modifier if the
curve has no modifier yet (`add_fmodifier` is external; a fresh Cycles
modifier extrapolates plain-cyclically on both sides). -/
def make_new_fcurve_cyclic (fcu : FCurve) (action_range : ℚ × ℚ) : FCurve :=
  match fcu.bezt with
  | [p] =>
    let period := action_range.2 - action_range.1
    if period < 1/10 then fcu
    else
      let frame_offset := p.time - action_range.1
      let fix := (⌊frame_offset / period⌋ : ℚ) * period
      let p0 : BezTriple := { p with time := p.time - fix }
      let p1 : BezTriple := { p0 with time := p0.time + period }
      { fcu with
        bezt := [p0, p1],
        cycles_mod :=
          match fcu.cycles_mod with
          | none => some ⟨FModExtrapMode.cyclic, FModExtrapMode.cyclic⟩
          | some m => some m }
  | _ => fcu

/-- `insert_keyframe_fcurve_value`: find or create the F-Curve for the path
and index — creation suppressed under replace-only/available-only policies,
failing with `CANNOT_CREATE_FCURVE` when no curve results — then apply the
cyclic-action bootstrap, update the auto-flags, and write the keyframe. -/
def insert_keyframe_fcurve_value (act : bAction) (group : Option String)
    (rna_path : String) (array_index : Int) (prop : PropType)
    (fcurve_frame curval : ℚ) (keytype : KeyframeType) (flag : InsertKeyFlags) :
    SingleKeyingResult × bAction :=
  let found :=
    if key_insertion_may_create_fcurve flag then
      let r := action_fcurve_ensure act group rna_path array_index
      (some r.1, r.2)
    else (action_fcurve_find act rna_path array_index, act)
  match found with
  | (none, act') => (CANNOT_CREATE_FCURVE, act')
  | (some fcu, act') =>
    let is_new_curve := fcu.bezt.length == 0
    let is_cyclic_action := flag.cycle_aware && act'.cyclic
    let fcu :=
      if is_cyclic_action && (fcu.bezt.length == 1) then
        make_new_fcurve_cyclic fcu (act'.frame_start, act'.frame_end)
      else fcu
    let fcu := update_autoflags_fcurve_direct fcu prop
    let r := insert_keyframe_value fcu fcurve_frame curval keytype flag
    let fcu2 :=
      if is_cyclic_action && is_new_curve then
        make_new_fcurve_cyclic r.2 (act'.frame_start, act'.frame_end)
      else r.2
    (r.1, act'.setCurve (rna_path, array_index) fcu2)

/-- The channel worklist of the array-insertion loops: for each array index
in order, the extracted value and the NLA remap-mask bit (the C++ indexes
`values[i]` and `successful_remaps[i]` directly; both have the same size). -/
def channelItems (values : List ℚ) (successful_remaps : List Bool) :
    List (Nat × ℚ × Bool) :=
  (List.range values.length).map fun i =>
    (i, values.getD i 0, successful_remaps.getD i false)

/-- The first loop of `insert_keyframe`'s force-all/restricted-policy
branch: attempt the successfully-remapped channels in ascending order under
the restrictive flags, recording each outcome, and stop at the first
success, returning the index found (`exclude`) together with the recorded
outcomes, the updated action and the key count. -/
def forceAllFirstPass (group : Option String) (rna_path : String)
    (prop : PropType) (frame : ℚ) (keytype : KeyframeType)
    (flag : InsertKeyFlags) :
    bAction → List (Nat × ℚ × Bool) →
      CombinedKeyingResult × bAction × Nat × Option Nat
  | act, [] => (CombinedKeyingResult.empty, act, 0, none)
  | act, (i, v, remapped) :: rest =>
    if !remapped then
      forceAllFirstPass group rna_path prop frame keytype flag act rest
    else
      let r := insert_keyframe_fcurve_value act group rna_path (i : Int) prop
        frame v keytype flag
      if r.1 = SUCCESS then (CombinedKeyingResult.empty.add1 r.1, r.2, 1, some i)
      else
        let t := forceAllFirstPass group rna_path prop frame keytype flag r.2 rest
        (t.1.add1 r.1, t.2.1, t.2.2.1, t.2.2.2)

/-- The plain per-channel insertion loop of `insert_keyframe`: write every
successfully-remapped channel, recording one outcome per attempt and
counting successes.  With `exclude = some k` it is the second loop of the
force-all branch (which skips the channel already keyed by the first pass);
with `exclude = none` it is the "simply insert all channels" loop, which has
no exclusion check. -/
def keyChannelsPass (group : Option String) (rna_path : String)
    (prop : PropType) (frame : ℚ) (keytype : KeyframeType)
    (flag : InsertKeyFlags) (exclude : Option Nat) :
    bAction → List (Nat × ℚ × Bool) → CombinedKeyingResult × bAction × Nat
  | act, [] => (CombinedKeyingResult.empty, act, 0)
  | act, (i, v, remapped) :: rest =>
    if !remapped then
      keyChannelsPass group rna_path prop frame keytype flag exclude act rest
    else if exclude = some i then
      keyChannelsPass group rna_path prop frame keytype flag exclude act rest
    else
      let r := insert_keyframe_fcurve_value act group rna_path (i : Int) prop
        frame v keytype flag
      let t := keyChannelsPass group rna_path prop frame keytype flag exclude r.2 rest
      (t.1.add1 r.1, t.2.1, t.2.2 + if r.1 = SUCCESS then 1 else 0)

/-- The legacy single-path orchestrator `insert_keyframe`.  Its external
preconditions and collaborators are explicit inputs: `editable` is
`BKE_id_is_editable`, `resolves` is the RNA path resolution, `animatable`
is `id_action_ensure` succeeding, `values` the extracted property values,
and `successful_remaps` / `force_all` the outputs of the external NLA remap
(the mask is created with one bit per value).  Returns the aggregate, the
updated action, and the number of keys written (`key_count`, which gates
the dependency-graph tag at the end of the C++ function). -/
def insert_keyframe (editable resolves animatable : Bool) (act : bAction)
    (group : Option String) (rna_path : String) (array_index : Int)
    (prop : PropType) (values : List ℚ) (successful_remaps : List Bool)
    (force_all : Bool) (nla_mapped_frame : ℚ) (keytype : KeyframeType)
    (flag : InsertKeyFlags) : CombinedKeyingResult × bAction × Nat :=
  if !editable then (CombinedKeyingResult.empty.add1 ID_NOT_EDITABLE, act, 0)
  else if !resolves then (CombinedKeyingResult.empty.add1 CANNOT_RESOLVE_PATH, act, 0)
  else if !animatable then (CombinedKeyingResult.empty.add1 ID_NOT_ANIMATABLE, act, 0)
  else
    let items := channelItems values successful_remaps
    if array_index = -1 ∨ force_all then
      if force_all && (flag.replace || flag.available) then
        let fp := forceAllFirstPass group rna_path prop nla_mapped_frame keytype flag act items
        match fp.2.2.2 with
        | none => (fp.1, fp.2.1, fp.2.2.1)
        | some exclude =>
          let flag' := { flag with replace := false, available := false }
          let sp := keyChannelsPass group rna_path prop nla_mapped_frame keytype
            flag' (some exclude) fp.2.1 items
          (fp.1.merge sp.1, sp.2.1, fp.2.2.1 + sp.2.2)
      else
        keyChannelsPass group rna_path prop nla_mapped_frame keytype flag none act items
    else
      if 0 ≤ array_index ∧ array_index < (values.length : Int) ∧
          successful_remaps.getD array_index.toNat false then
        let r := insert_keyframe_fcurve_value act group rna_path array_index
          prop nla_mapped_frame (values.getD array_index.toNat 0) keytype flag
        (CombinedKeyingResult.empty.add1 r.1, r.2, if r.1 = SUCCESS then 1 else 0)
      else (CombinedKeyingResult.empty, act, 0)

/-- The per-channel loop of `insert_key_legacy_action`: a channel masked out
by the keying mask records one `UNABLE_TO_INSERT_TO_NLA_STACK` outcome and
moves on; every other channel is written and its outcome recorded. -/
def legacyChannelLoop (group : Option String) (rna_path : String)
    (prop : PropType) (frame : ℚ) (keytype : KeyframeType)
    (flag : InsertKeyFlags) :
    bAction → List (Nat × ℚ × Bool) → CombinedKeyingResult × bAction
  | act, [] => (CombinedKeyingResult.empty, act)
  | act, (i, v, masked) :: rest =>
    if !masked then
      let t := legacyChannelLoop group rna_path prop frame keytype flag act rest
      (t.1.add1 UNABLE_TO_INSERT_TO_NLA_STACK, t.2)
    else
      let r := insert_keyframe_fcurve_value act group rna_path (i : Int) prop
        frame v keytype flag
      let t := legacyChannelLoop group rna_path prop frame keytype flag r.2 rest
      (t.1.add1 r.1, t.2)

/-- `insert_key_legacy_action`: iterate the extracted values in array-index
order against the keying mask (the channel group is derived externally from
the RNA pointer and is advisory metadata here). -/
def insert_key_legacy_action (act : bAction) (group : Option String)
    (rna_path : String) (prop : PropType) (frame : ℚ) (values : List ℚ)
    (flag : InsertKeyFlags) (keytype : KeyframeType)
    (keying_mask : List Bool) : CombinedKeyingResult × bAction :=
  legacyChannelLoop group rna_path prop frame keytype flag act
    (channelItems values keying_mask)

/-- A requested property path: the path string and the optional single
array index restriction (`RNAPath`). -/
structure RNAPath where
  path : String
  index : Option Int
deriving DecidableEq

/-- What the external collaborators produce for one successfully resolved
path: the extracted values (`get_keyframe_values`), the NLA keying mask,
the property type, and the path from the ID to the property
(`RNA_path_from_ID_to_property`).  A batch orchestrator receives these
through a resolution environment `RNAPath → Option PathData`, `none` for a
path whose property resolution fails. -/
structure PathData where
  values : List ℚ
  remaps : List Bool
  prop : PropType
  path_id_to_prop : String

/-- The keyframe strip the layered path writes into, reduced to the curve
storage of the channel-bag for the one binding of the call: curves keyed by
(RNA path, array index).  The source asserts the layer holds exactly one
infinite, unshifted strip, which this state models. -/
structure KeyframeStrip where
  curves : List ((String × Int) × FCurve)
deriving DecidableEq

/-- Modelled from the spec: `KeyframeStrip::keyframe_insert` is only
declared in the sources.  Per the spec's layered path, it resolves/creates
the Curve for (path, element index) in the binding's channel bag and writes
the keyframe through the curve-level write. -/
def KeyframeStrip.keyframe_insert (strip : KeyframeStrip) (rna_path : String)
    (array_index : Int) (time value : ℚ) (keytype : KeyframeType)
    (flag : InsertKeyFlags) : SingleKeyingResult × KeyframeStrip :=
  match strip.curves.find? fun e => decide (e.1 = (rna_path, array_index)) with
  | some e =>
    let r := insert_keyframe_value e.2 time value keytype flag
    (r.1,
     ⟨strip.curves.map fun c =>
        if c.1 = (rna_path, array_index) then ((rna_path, array_index), r.2) else c⟩)
  | none =>
    let r := insert_keyframe_value newFCurve time value keytype flag
    (r.1, ⟨strip.curves ++ [((rna_path, array_index), r.2)]⟩)

/-- The element worklist of the layered per-path loop: each array index in
order with its extracted value. -/
def valueItems (values : List ℚ) : List (Nat × ℚ) :=
  (List.range values.length).map fun i => (i, values.getD i 0)

/-- The inner element loop of `insert_key_layered_action`: skip elements
excluded by the path's single-index restriction, write each remaining
element through the layer (`insert_key_layer`), and record one outcome per
written element. -/
def layeredChannelLoop (path_id_to_prop : String) (restrict : Option Int)
    (frame : ℚ) (keytype : KeyframeType) (flag : InsertKeyFlags) :
    KeyframeStrip → List (Nat × ℚ) → CombinedKeyingResult × KeyframeStrip
  | strip, [] => (CombinedKeyingResult.empty, strip)
  | strip, (i, v) :: rest =>
    if (match restrict with
        | some j => decide (j ≠ (i : Int))
        | none => false) then
      layeredChannelLoop path_id_to_prop restrict frame keytype flag strip rest
    else
      let r := strip.keyframe_insert path_id_to_prop (i : Int) frame v keytype flag
      let t := layeredChannelLoop path_id_to_prop restrict frame keytype flag r.2 rest
      (t.1.add1 r.1, t.2)

/-- The per-path loop of `insert_key_layered_action`: a path whose property
resolution fails records one `CANNOT_RESOLVE_PATH` outcome and processing
continues with the next path; a resolved path runs the element loop over
its extracted values. -/
def layeredPathLoop (env : RNAPath → Option PathData) (frame : ℚ)
    (keytype : KeyframeType) (flag : InsertKeyFlags) :
    KeyframeStrip → List RNAPath → CombinedKeyingResult × KeyframeStrip
  | strip, [] => (CombinedKeyingResult.empty, strip)
  | strip, p :: rest =>
    match env p with
    | none =>
      let t := layeredPathLoop env frame keytype flag strip rest
      (t.1.add1 CANNOT_RESOLVE_PATH, t.2)
    | some d =>
      let r := layeredChannelLoop d.path_id_to_prop p.index frame keytype flag
        strip (valueItems d.values)
      let t := layeredPathLoop env frame keytype flag r.2 rest
      (r.1.merge t.1, t.2)

/-- `insert_key_layered_action`: run the per-path loop, then notify the
dependency system.  The last component counts the dependency-graph
notifications issued by the call: the C++ calls `DEG_id_tag_update` exactly
once, at the end, on every path through the function. -/
def insert_key_layered_action (env : RNAPath → Option PathData)
    (strip : KeyframeStrip) (scene_frame : ℚ) (keytype : KeyframeType)
    (flag : InsertKeyFlags) (rna_paths : List RNAPath) :
    CombinedKeyingResult × KeyframeStrip × Nat :=
  let t := layeredPathLoop env scene_frame keytype flag strip rna_paths
  (t.1, t.2, 1)

/-- The legacy per-path loop of `insert_key_rna`: a path whose property
resolution fails records one `CANNOT_RESOLVE_PATH` outcome and the batch
continues; a resolved path is keyed through `insert_key_legacy_action` and
its aggregate merged in. -/
def insert_key_rna_legacy_paths (env : RNAPath → Option PathData)
    (group : Option String) (nla_frame : ℚ) (flag : InsertKeyFlags)
    (keytype : KeyframeType) :
    bAction → List RNAPath → CombinedKeyingResult × bAction
  | act, [] => (CombinedKeyingResult.empty, act)
  | act, p :: rest =>
    match env p with
    | none =>
      let t := insert_key_rna_legacy_paths env group nla_frame flag keytype act rest
      (t.1.add1 CANNOT_RESOLVE_PATH, t.2)
    | some d =>
      let r := insert_key_legacy_action act group d.path_id_to_prop d.prop
        nla_frame d.values flag keytype d.remaps
      let t := insert_key_rna_legacy_paths env group nla_frame flag keytype r.2 rest
      (r.1.merge t.1, t.2)

-- ===== Theorems =====

/-- Helper: selecting the positive entries of a kind list, one singleton or
nil per kind, equals filtering the kind list and pairing each survivor with
its count. -/
theorem flatMap_entry_eq_filter (f : SingleKeyingResult → Int) :
    ∀ l : List SingleKeyingResult,
      (l.flatMap fun k => if 0 < f k then [(k, f k)] else []) =
        (l.filter fun k => decide (0 < f k)).map (fun k => (k, f k)) := by
  intro l
  induction l with
  | nil => rfl
  | cons a t ih =>
    by_cases h : 0 < f a <;> simp [List.filter_cons, h, ih]

/-- The error-message list is exactly the positive error kinds, in enum
order, paired with their counts. -/
theorem errorMessages_eq_filter (c : CombinedKeyingResult) :
    c.errorMessages =
      (errorKeyingResults.filter fun k => decide (0 < c.get_count k)).map
        (fun k => (k, c.get_count k)) := by
  rw [← flatMap_entry_eq_filter]
  simp [CombinedKeyingResult.errorMessages, errorKeyingResults]

/-- Claim C7: on a fresh aggregator, `add(R, c)` makes `get_count(R)` equal
to `c`; `merge` yields, in either order, the sum of the two counters for
every kind, and is associative over the per-kind counts. -/
theorem claim_C7 :
    (∀ (R : SingleKeyingResult) (cnt : Int), 0 ≤ cnt →
      (CombinedKeyingResult.empty.add R cnt).get_count R = cnt)
    ∧ (∀ (A B : CombinedKeyingResult) (k : SingleKeyingResult),
        (A.merge B).get_count k = A.get_count k + B.get_count k ∧
        (B.merge A).get_count k = A.get_count k + B.get_count k)
    ∧ (∀ (A B C : CombinedKeyingResult) (k : SingleKeyingResult),
        ((A.merge B).merge C).get_count k = (A.merge (B.merge C)).get_count k) := by
  refine ⟨?_, ?_, ?_⟩
  · intro R cnt _
    simp [CombinedKeyingResult.empty, CombinedKeyingResult.add,
      CombinedKeyingResult.get_count]
  · intro A B k
    constructor
    · simp [CombinedKeyingResult.merge, CombinedKeyingResult.get_count]
    · simp [CombinedKeyingResult.merge, CombinedKeyingResult.get_count]
      ring
  · intro A B C k
    simp [CombinedKeyingResult.merge, CombinedKeyingResult.get_count]; ring

/-- Witness for C7 at concrete inputs. -/
theorem claim_C7_witness :
    (0 : Int) ≤ 3 ∧
    (CombinedKeyingResult.empty.add CANNOT_RESOLVE_PATH 3).get_count
      CANNOT_RESOLVE_PATH = 3 :=
  ⟨by decide, claim_C7.1 CANNOT_RESOLVE_PATH 3 (by decide)⟩

/-- Claim C3: the report policy of `generate_reports`.  An aggregate with
all counts zero emits exactly the "no keys and no errors" warning; an
aggregate whose positive error kinds are exactly `[k]` emits a single error
report carrying `k`'s count; an aggregate with at least two positive error
kinds emits one combined report, headed by the fixed header line, holding
one sub-message (kind, count) per positive error kind in enum order. -/
theorem claim_C3 (c : CombinedKeyingResult) :
    ((∀ k, c.get_count k = 0) →
      c.generate_reports = [Report.warnNoKeysNoErrors])
    ∧ (∀ k, (errorKeyingResults.filter fun j => decide (0 < c.get_count j)) = [k] →
        c.generate_reports = [Report.errSingle k (c.get_count k)])
    ∧ (2 ≤ (errorKeyingResults.filter fun j => decide (0 < c.get_count j)).length →
        c.generate_reports = [Report.errCombined combinedReportHeader c.errorMessages]
        ∧ c.errorMessages =
            (errorKeyingResults.filter fun j => decide (0 < c.get_count j)).map
              (fun k => (k, c.get_count k))) := by
  refine ⟨?_, ?_, ?_⟩
  · intro h
    have h' : ∀ k, c.result_counter k = 0 := h
    have herr : c.has_errors = false := by
      simp [CombinedKeyingResult.has_errors, errorKeyingResults, h']
    simp [CombinedKeyingResult.generate_reports, herr,
      CombinedKeyingResult.get_count, h']
  · intro k hfilter
    have hmem : k ∈ errorKeyingResults.filter fun j => decide (0 < c.get_count j) := by
      rw [hfilter]; exact List.mem_singleton.mpr rfl
    obtain ⟨hk_mem, hk_pos⟩ := List.mem_filter.mp hmem
    have herr : c.has_errors = true := by
      simp only [CombinedKeyingResult.has_errors, List.any_eq_true]
      exact ⟨k, hk_mem, hk_pos⟩
    have hmsg : c.errorMessages = [(k, c.get_count k)] := by
      rw [errorMessages_eq_filter, hfilter]; rfl
    simp [CombinedKeyingResult.generate_reports, herr, hmsg]
  · intro h2
    refine ⟨?_, errorMessages_eq_filter c⟩
    obtain ⟨a, b, t, hsplit⟩ :
        ∃ a b t, (errorKeyingResults.filter fun j => decide (0 < c.get_count j))
          = a :: b :: t := by
      match hf : errorKeyingResults.filter fun j => decide (0 < c.get_count j) with
      | [] => rw [hf] at h2; simp at h2
      | [x] => rw [hf] at h2; simp at h2
      | x :: y :: t => exact ⟨x, y, t, rfl⟩
    have hmem : a ∈ errorKeyingResults.filter fun j => decide (0 < c.get_count j) := by
      rw [hsplit]; exact List.mem_cons_self a _
    obtain ⟨ha_mem, ha_pos⟩ := List.mem_filter.mp hmem
    have herr : c.has_errors = true := by
      simp only [CombinedKeyingResult.has_errors, List.any_eq_true]
      exact ⟨a, ha_mem, ha_pos⟩
    have hmsg : c.errorMessages
        = (a, c.get_count a) :: (b, c.get_count b) :: t.map (fun k => (k, c.get_count k)) := by
      rw [errorMessages_eq_filter, hsplit]; rfl
    rw [CombinedKeyingResult.generate_reports, hmsg]
    simp [herr, ← hmsg]

/-- Witness for C3: a fresh aggregate; one with exactly
`CANNOT_RESOLVE_PATH = 2`; one with `CANNOT_RESOLVE_PATH = 1` and
`ID_NOT_EDITABLE = 1`. -/
theorem claim_C3_witness :
    CombinedKeyingResult.empty.generate_reports = [Report.warnNoKeysNoErrors]
    ∧ (CombinedKeyingResult.empty.add CANNOT_RESOLVE_PATH 2).generate_reports
        = [Report.errSingle CANNOT_RESOLVE_PATH 2]
    ∧ ((CombinedKeyingResult.empty.add CANNOT_RESOLVE_PATH 1).add
        ID_NOT_EDITABLE 1).generate_reports
        = [Report.errCombined combinedReportHeader
            [(ID_NOT_EDITABLE, 1), (CANNOT_RESOLVE_PATH, 1)]] := by
  refine ⟨(claim_C3 _).1 (by decide), ?_, ?_⟩
  · have h := (claim_C3 (CombinedKeyingResult.empty.add CANNOT_RESOLVE_PATH 2)).2.1
      CANNOT_RESOLVE_PATH (by decide)
    exact h.trans (by decide)
  · have h := ((claim_C3 ((CombinedKeyingResult.empty.add CANNOT_RESOLVE_PATH 1).add
      ID_NOT_EDITABLE 1)).2.2 (by decide)).1
    exact h.trans (by decide)

/-- Claim C10: an aggregate with at least one success and all error counts
zero still emits exactly one report: the fallback "unhandled error"
warning. -/
theorem claim_C10 (c : CombinedKeyingResult)
    (h1 : 0 < c.get_count SUCCESS)
    (h2 : ∀ k ∈ errorKeyingResults, c.get_count k = 0) :
    c.generate_reports = [Report.warnUnhandled] := by
  have herr : c.has_errors = false := by
    simp only [CombinedKeyingResult.has_errors, List.any_eq_false,
      decide_eq_true_eq]
    intro k hk
    have hz := h2 k hk
    simp only [CombinedKeyingResult.get_count] at hz
    omega
  have hmsg : c.errorMessages = [] := by
    rw [errorMessages_eq_filter]
    have : (errorKeyingResults.filter fun j => decide (0 < c.get_count j)) = [] := by
      rw [List.filter_eq_nil_iff]
      intro k hk
      simp [h2 k hk]
    rw [this]; rfl
  have hs : c.get_count SUCCESS ≠ 0 := by omega
  simp [CombinedKeyingResult.generate_reports, herr, hmsg, hs]

/-- Witness for C10: five successes and nothing else. -/
theorem claim_C10_witness :
    (CombinedKeyingResult.empty.add SUCCESS 5).generate_reports
      = [Report.warnUnhandled] :=
  claim_C10 _ (by decide) (by decide)

/-- Claim C2: the cycle remapper returns the non-cyclic type and leaves time
and value unchanged when the curve has fewer than 2 points, has no cycle
modifier, or the last point's time is at or before the first point's time;
otherwise, for a candidate time outside the span, it folds the time by
`period × floor((t − start) / period)` and adjusts the value by
`step × (last.value − first.value)` exactly for offset-accumulating cycles
whose relevant-side mode is cyclic-offset; on a 2-point curve spanning
`[0, 10]`, times 23 and −7 both remap to 3. -/
theorem claim_C2 :
    (∀ (fcu : FCurve) (px py : ℚ),
      (fcu.bezt.length < 2 ∨ fcu.cycles_mod = none ∨
        (fcu.bezt.getLastD default).time ≤ (fcu.bezt.headD default).time) →
      remap_cyclic_keyframe_location fcu px py = (FCU_CYCLE_NONE, px, py))
    ∧ (∀ (fcu : FCurve) (m : FModCycles) (px py : ℚ),
      fcu.cycles_mod = some m →
      2 ≤ fcu.bezt.length →
      BKE_fcurve_get_cycle_type fcu ≠ FCU_CYCLE_NONE →
      (fcu.bezt.headD default).time < (fcu.bezt.getLastD default).time →
      (px < (fcu.bezt.headD default).time ∨
        (fcu.bezt.getLastD default).time < px) →
      remap_cyclic_keyframe_location fcu px py =
        (BKE_fcurve_get_cycle_type fcu,
         px - (⌊(px - (fcu.bezt.headD default).time) /
                ((fcu.bezt.getLastD default).time - (fcu.bezt.headD default).time)⌋ : ℚ) *
              ((fcu.bezt.getLastD default).time - (fcu.bezt.headD default).time),
         py - (if BKE_fcurve_get_cycle_type fcu = FCU_CYCLE_OFFSET ∧
                 (if 0 ≤ ⌊(px - (fcu.bezt.headD default).time) /
                      ((fcu.bezt.getLastD default).time - (fcu.bezt.headD default).time)⌋
                  then m.after_mode else m.before_mode) = FModExtrapMode.cyclicOffset
               then (⌊(px - (fcu.bezt.headD default).time) /
                      ((fcu.bezt.getLastD default).time - (fcu.bezt.headD default).time)⌋ : ℚ) *
                    ((fcu.bezt.getLastD default).value - (fcu.bezt.headD default).value)
               else 0)))
    ∧ (remap_cyclic_keyframe_location
        ⟨[⟨0, 0, KeyframeType.keyframe⟩, ⟨10, 5, KeyframeType.keyframe⟩],
         false, false, false, false,
         some ⟨FModExtrapMode.cyclic, FModExtrapMode.cyclic⟩⟩ 23 0
        = (FCU_CYCLE_PERFECT, 3, 0)
      ∧ remap_cyclic_keyframe_location
        ⟨[⟨0, 0, KeyframeType.keyframe⟩, ⟨10, 5, KeyframeType.keyframe⟩],
         false, false, false, false,
         some ⟨FModExtrapMode.cyclic, FModExtrapMode.cyclic⟩⟩ (-7) 0
        = (FCU_CYCLE_PERFECT, 3, 0)) := by
  refine ⟨?_, ?_, ?_⟩
  · intro fcu px py h
    by_cases hl : fcu.bezt.length < 2
    · simp [remap_cyclic_keyframe_location, hl]
    rcases h with h | h | h
    · exact absurd h hl
    · simp [remap_cyclic_keyframe_location, hl, BKE_fcurve_get_cycle_type, h]
    · by_cases hty : BKE_fcurve_get_cycle_type fcu = FCU_CYCLE_NONE
      · simp [remap_cyclic_keyframe_location, hl, hty]
      · simp only [List.getLastD_eq_getLast?, List.headD_eq_head?] at h
        simp [remap_cyclic_keyframe_location, hl, hty, h]
  · intro fcu m px py hm hlen hty hrange hout
    have hl : ¬fcu.bezt.length < 2 := by omega
    simp only [List.getLastD_eq_getLast?, List.headD_eq_head?] at hrange hout ⊢
    have hns : ¬((fcu.bezt.getLast?.getD default).time ≤
        (fcu.bezt.head?.getD default).time) := not_le.mpr hrange
    rw [remap_cyclic_keyframe_location]
    by_cases hoff : BKE_fcurve_get_cycle_type fcu = FCU_CYCLE_OFFSET <;>
      by_cases hmode : (if 0 ≤ ⌊(px - (fcu.bezt.head?.getD default).time) /
          ((fcu.bezt.getLast?.getD default).time - (fcu.bezt.head?.getD default).time)⌋
          then m.after_mode else m.before_mode) = FModExtrapMode.cyclicOffset <;>
        simp [hl, hty, hns, hout, hm, hoff, hmode, sub_eq_iff_eq_add]
  · constructor <;>
      norm_num [remap_cyclic_keyframe_location, BKE_fcurve_get_cycle_type,
        Rat.floor_def] <;> simp

/-- Witness for C2 at a concrete input with a hypothesis discharged: a
curve with no points is treated as non-cyclic and the coordinates are left
unchanged. -/
theorem claim_C2_witness :
    remap_cyclic_keyframe_location ⟨[], false, false, false, false, none⟩ 5 7
      = (FCU_CYCLE_NONE, 5, 7) :=
  claim_C2.1 _ 5 7 (Or.inl (by simp))

/-- Claim C6: the curve-level write fails with `FCURVE_NOT_KEYFRAMEABLE` on
a locked or sampled curve and leaves the curve unchanged. -/
theorem claim_C6 (fcu : FCurve) (cfra curval : ℚ) (keytype : KeyframeType)
    (flag : InsertKeyFlags) (h : fcu.locked = true ∨ fcu.sampled = true) :
    insert_keyframe_value fcu cfra curval keytype flag
      = (FCURVE_NOT_KEYFRAMEABLE, fcu) := by
  have hk : BKE_fcurve_is_keyframable fcu = false := by
    rcases h with h | h <;> simp [BKE_fcurve_is_keyframable, h]
  simp [insert_keyframe_value, hk]

/-- Witness for C6: a locked one-point curve. -/
theorem claim_C6_witness :
    insert_keyframe_value
      ⟨[⟨1, 2, KeyframeType.keyframe⟩], true, false, false, false, none⟩ 3 4
      KeyframeType.keyframe ⟨false, false, false, false, false, false⟩
      = (FCURVE_NOT_KEYFRAMEABLE,
         ⟨[⟨1, 2, KeyframeType.keyframe⟩], true, false, false, false, none⟩) :=
  claim_C6 _ 3 4 KeyframeType.keyframe _ (Or.inl rfl)

/-- Adding one outcome raises exactly that kind's count by one. -/
theorem get_count_add1 (c : CombinedKeyingResult) (r k : SingleKeyingResult) :
    (c.add1 r).get_count k = c.get_count k + if k = r then 1 else 0 := by
  simp only [CombinedKeyingResult.add1, CombinedKeyingResult.add,
    CombinedKeyingResult.get_count]
  split <;> simp

/-- Merged aggregates count pointwise sums. -/
theorem get_count_merge (a b : CombinedKeyingResult) (k : SingleKeyingResult) :
    (a.merge b).get_count k = a.get_count k + b.get_count k := rfl

/-- Adding one outcome raises the total number of recorded outcomes by one. -/
theorem total_add1 (c : CombinedKeyingResult) (r : SingleKeyingResult) :
    (c.add1 r).total = c.total + 1 := by
  cases r <;>
    simp [CombinedKeyingResult.total, allKeyingResults, CombinedKeyingResult.add1,
      CombinedKeyingResult.add] <;> ring

/-- A channel whose remap-mask bit is false is invisible to the first
force-all pass: the run is identical to the run without that channel. -/
theorem forceAllFirstPass_skip_masked (group : Option String) (rna_path : String)
    (prop : PropType) (frame : ℚ) (keytype : KeyframeType) (flag : InsertKeyFlags)
    (i : Nat) (v : ℚ) :
    ∀ (pre post : List (Nat × ℚ × Bool)) (act : bAction),
      forceAllFirstPass group rna_path prop frame keytype flag act
          (pre ++ (i, v, false) :: post)
        = forceAllFirstPass group rna_path prop frame keytype flag act (pre ++ post) := by
  intro pre
  induction pre with
  | nil =>
    intro post act
    simp [forceAllFirstPass]
  | cons q t ih =>
    intro post act
    obtain ⟨j, w, b⟩ := q
    cases b
    · simpa [forceAllFirstPass] using ih post act
    · simp only [List.cons_append, forceAllFirstPass, Bool.not_true,
        Bool.false_eq_true, if_false]
      split
      · rfl
      · simp [ih]

/-- A channel whose remap-mask bit is false is invisible to the per-channel
insertion loop: the run is identical to the run without that channel. -/
theorem keyChannelsPass_skip_masked (group : Option String) (rna_path : String)
    (prop : PropType) (frame : ℚ) (keytype : KeyframeType) (flag : InsertKeyFlags)
    (exclude : Option Nat) (i : Nat) (v : ℚ) :
    ∀ (pre post : List (Nat × ℚ × Bool)) (act : bAction),
      keyChannelsPass group rna_path prop frame keytype flag exclude act
          (pre ++ (i, v, false) :: post)
        = keyChannelsPass group rna_path prop frame keytype flag exclude act
            (pre ++ post) := by
  intro pre
  induction pre with
  | nil =>
    intro post act
    simp [keyChannelsPass]
  | cons q t ih =>
    intro post act
    obtain ⟨j, w, b⟩ := q
    cases b
    · simpa [keyChannelsPass] using ih post act
    · simp only [List.cons_append, keyChannelsPass, Bool.not_true,
        Bool.false_eq_true, if_false]
      split
      · exact ih post act
      · simp [ih]

/-- In the batch legacy loop a masked-out channel contributes exactly one
`UNABLE_TO_INSERT_TO_NLA_STACK` outcome and nothing else, and the curve
state is the same as without that channel. -/
theorem legacyChannelLoop_masked_channel (group : Option String)
    (rna_path : String) (prop : PropType) (frame : ℚ) (keytype : KeyframeType)
    (flag : InsertKeyFlags) (i : Nat) (v : ℚ) :
    ∀ (pre post : List (Nat × ℚ × Bool)) (act : bAction) (k : SingleKeyingResult),
      (legacyChannelLoop group rna_path prop frame keytype flag act
          (pre ++ (i, v, false) :: post)).1.get_count k
        = (legacyChannelLoop group rna_path prop frame keytype flag act
            (pre ++ post)).1.get_count k
          + (if k = UNABLE_TO_INSERT_TO_NLA_STACK then 1 else 0)
      ∧ (legacyChannelLoop group rna_path prop frame keytype flag act
          (pre ++ (i, v, false) :: post)).2
        = (legacyChannelLoop group rna_path prop frame keytype flag act
            (pre ++ post)).2 := by
  intro pre
  induction pre with
  | nil =>
    intro post act k
    constructor
    · simp [legacyChannelLoop, get_count_add1]
    · simp [legacyChannelLoop]
  | cons q t ih =>
    intro post act k
    obtain ⟨j, w, b⟩ := q
    cases b
    · have h := ih post act k
      constructor
      · simp only [List.cons_append, legacyChannelLoop, Bool.not_false, if_true,
          get_count_add1, List.append_eq, h.1]
      · simp only [List.cons_append, legacyChannelLoop, Bool.not_false, if_true,
          List.append_eq, h.2]
    · have h := fun a => ih post a k
      constructor
      · simp only [List.cons_append, legacyChannelLoop, Bool.not_true,
          Bool.false_eq_true, if_false, get_count_add1, List.append_eq, (h _).1]
        ring
      · simp only [List.cons_append, legacyChannelLoop, Bool.not_true,
          Bool.false_eq_true, if_false, List.append_eq, (h _).2]

/-- The single-index branch of the legacy orchestrator records no outcome at
all for an index that is out of range or masked out by the NLA remap. -/
theorem insert_keyframe_single_index_skip (act : bAction) (group : Option String)
    (rna_path : String) (array_index : Int) (prop : PropType) (values : List ℚ)
    (successful_remaps : List Bool) (frame : ℚ) (keytype : KeyframeType)
    (flag : InsertKeyFlags)
    (hne : array_index ≠ -1)
    (h : array_index < 0 ∨ (values.length : Int) ≤ array_index ∨
      successful_remaps.getD array_index.toNat false = false) :
    insert_keyframe true true true act group rna_path array_index prop values
        successful_remaps false frame keytype flag
      = (CombinedKeyingResult.empty, act, 0) := by
  have hcond : ¬(0 ≤ array_index ∧ array_index < (values.length : Int) ∧
      successful_remaps.getD array_index.toNat false = true) := by
    rintro ⟨h1, h2, h3⟩
    rcases h with h | h | h
    · omega
    · omega
    · rw [h3] at h; cases h
  have hor : ¬(array_index = -1 ∨ false = true) := by simp [hne]
  unfold insert_keyframe
  rw [if_neg hor, if_neg hcond]
  rfl

/-- The first force-all pass stops at the first success: when it returns an
exclude index it has recorded exactly one success and written exactly one
key, and when it returns none it has recorded no success and written no
key. -/
theorem forceAllFirstPass_stops_at_first_success (group : Option String)
    (rna_path : String) (prop : PropType) (frame : ℚ) (keytype : KeyframeType)
    (flag : InsertKeyFlags) :
    ∀ (items : List (Nat × ℚ × Bool)) (act : bAction),
      ((forceAllFirstPass group rna_path prop frame keytype flag act items).2.2.2.isSome →
        (forceAllFirstPass group rna_path prop frame keytype flag act items).1.get_count SUCCESS = 1
        ∧ (forceAllFirstPass group rna_path prop frame keytype flag act items).2.2.1 = 1)
      ∧ ((forceAllFirstPass group rna_path prop frame keytype flag act items).2.2.2 = none →
        (forceAllFirstPass group rna_path prop frame keytype flag act items).1.get_count SUCCESS = 0
        ∧ (forceAllFirstPass group rna_path prop frame keytype flag act items).2.2.1 = 0) := by
  intro items
  induction items with
  | nil =>
    intro act
    constructor
    · intro h; simp [forceAllFirstPass] at h
    · intro _; constructor <;> rfl
  | cons q rest ih =>
    intro act
    obtain ⟨i, v, b⟩ := q
    cases b
    · simpa [forceAllFirstPass] using ih act
    · simp only [forceAllFirstPass, Bool.not_true, Bool.false_eq_true, if_false]
      split
      · rename_i hs
        constructor
        · intro _
          constructor
          · simp [hs, CombinedKeyingResult.add1, CombinedKeyingResult.add,
              CombinedKeyingResult.get_count, CombinedKeyingResult.empty]
          · rfl
        · intro h; cases h
      · rename_i hns
        constructor
        · intro h
          simp only [get_count_add1, if_neg (Ne.symm hns)]
          have := ((ih _).1 h)
          simpa using this
        · intro h
          simp only [get_count_add1, if_neg (Ne.symm hns)]
          have := ((ih _).2 h)
          simpa using this

/-- The per-channel insertion loop records exactly one outcome per channel
that is successfully remapped and not the excluded index. -/
theorem keyChannelsPass_total (group : Option String) (rna_path : String)
    (prop : PropType) (frame : ℚ) (keytype : KeyframeType)
    (flag : InsertKeyFlags) (exclude : Option Nat) :
    ∀ (items : List (Nat × ℚ × Bool)) (act : bAction),
      (keyChannelsPass group rna_path prop frame keytype flag exclude act items).1.total
        = ((items.filter fun it => it.2.2 && !decide (exclude = some it.1)).length : Int) := by
  intro items
  induction items with
  | nil => intro act; rfl
  | cons q rest ih =>
    intro act
    obtain ⟨i, v, b⟩ := q
    cases b
    · simpa [keyChannelsPass, List.filter_cons] using ih act
    · by_cases hex : exclude = some i
      · subst hex
        simpa [keyChannelsPass, List.filter_cons] using ih act
      · simp [keyChannelsPass, List.filter_cons, hex, total_add1, ih]

/-- C5 helper: a path whose resolution fails adds exactly one
`CANNOT_RESOLVE_PATH` in the layered per-path loop and leaves the curve
state exactly as if the path had not been requested. -/
theorem layeredPathLoop_unresolved (env : RNAPath → Option PathData)
    (frame : ℚ) (keytype : KeyframeType) (flag : InsertKeyFlags)
    (p : RNAPath) (hp : env p = none) :
    ∀ (pre post : List RNAPath) (strip : KeyframeStrip) (k : SingleKeyingResult),
      ((layeredPathLoop env frame keytype flag strip (pre ++ p :: post)).1.get_count k
        = (layeredPathLoop env frame keytype flag strip (pre ++ post)).1.get_count k
          + if k = CANNOT_RESOLVE_PATH then 1 else 0)
      ∧ (layeredPathLoop env frame keytype flag strip (pre ++ p :: post)).2
        = (layeredPathLoop env frame keytype flag strip (pre ++ post)).2 := by
  intro pre
  induction pre with
  | nil =>
    intro post strip k
    constructor
    · simp [layeredPathLoop, hp, get_count_add1]
    · simp [layeredPathLoop, hp]
  | cons q t ih =>
    intro post strip k
    cases hq : env q
    · have h := ih post strip k
      constructor
      · simp only [List.cons_append, layeredPathLoop, hq, get_count_add1,
          List.append_eq, h.1]
      · simp only [List.cons_append, layeredPathLoop, hq, List.append_eq, h.2]
    · rename_i d
      have h := fun s => ih post s k
      constructor
      · simp only [List.cons_append, layeredPathLoop, hq, get_count_merge,
          List.append_eq, (h _).1]
        ring
      · simp only [List.cons_append, layeredPathLoop, hq, List.append_eq, (h _).2]

/-- C5 helper: the same for the legacy batch per-path loop. -/
theorem insert_key_rna_legacy_paths_unresolved (env : RNAPath → Option PathData)
    (group : Option String) (nla_frame : ℚ) (flag : InsertKeyFlags)
    (keytype : KeyframeType) (p : RNAPath) (hp : env p = none) :
    ∀ (pre post : List RNAPath) (act : bAction) (k : SingleKeyingResult),
      ((insert_key_rna_legacy_paths env group nla_frame flag keytype act
          (pre ++ p :: post)).1.get_count k
        = (insert_key_rna_legacy_paths env group nla_frame flag keytype act
            (pre ++ post)).1.get_count k
          + if k = CANNOT_RESOLVE_PATH then 1 else 0)
      ∧ (insert_key_rna_legacy_paths env group nla_frame flag keytype act
          (pre ++ p :: post)).2
        = (insert_key_rna_legacy_paths env group nla_frame flag keytype act
            (pre ++ post)).2 := by
  intro pre
  induction pre with
  | nil =>
    intro post act k
    constructor
    · simp [insert_key_rna_legacy_paths, hp, get_count_add1]
    · simp [insert_key_rna_legacy_paths, hp]
  | cons q t ih =>
    intro post act k
    cases hq : env q
    · have h := ih post act k
      constructor
      · simp only [List.cons_append, insert_key_rna_legacy_paths, hq,
          get_count_add1, List.append_eq, h.1]
      · simp only [List.cons_append, insert_key_rna_legacy_paths, hq,
          List.append_eq, h.2]
    · rename_i d
      have h := fun a => ih post a k
      constructor
      · simp only [List.cons_append, insert_key_rna_legacy_paths, hq,
          get_count_merge, List.append_eq, (h _).1]
        ring
      · simp only [List.cons_append, insert_key_rna_legacy_paths, hq,
          List.append_eq, (h _).2]

/-- Claim C1: in the legacy orchestrator's force-all/restricted-policy
branch, channels are attempted in ascending index order under the
restrictive policy until the first success (the first pass records exactly
one success when it finds an exclude index and none otherwise); after that
first success the replace/available flags are dropped and every other
successfully-remapped channel is attempted under the relaxed policy (the
second pass records exactly one outcome per remapped, non-excluded
channel).  Concretely, with replace-only policy, force-all and 3 channels
of which only channel 1 has an existing curve: channel 0 fails first under
the restrictive policy, channel 1 succeeds, the policy is dropped, and
channels 0 and 2 are then also written — 3 successes, 3 keys, and all 3
channels end with exactly one new point at the insertion frame. -/
theorem claim_C1 :
    (∀ (group : Option String) (rna_path : String) (prop : PropType) (frame : ℚ)
        (keytype : KeyframeType) (flag : InsertKeyFlags)
        (items : List (Nat × ℚ × Bool)) (act : bAction),
      ((forceAllFirstPass group rna_path prop frame keytype flag act items).2.2.2.isSome →
        (forceAllFirstPass group rna_path prop frame keytype flag act items).1.get_count SUCCESS = 1
        ∧ (forceAllFirstPass group rna_path prop frame keytype flag act items).2.2.1 = 1)
      ∧ ((forceAllFirstPass group rna_path prop frame keytype flag act items).2.2.2 = none →
        (forceAllFirstPass group rna_path prop frame keytype flag act items).1.get_count SUCCESS = 0
        ∧ (forceAllFirstPass group rna_path prop frame keytype flag act items).2.2.1 = 0))
    ∧ (∀ (group : Option String) (rna_path : String) (prop : PropType) (frame : ℚ)
        (keytype : KeyframeType) (flag : InsertKeyFlags) (exclude : Option Nat)
        (items : List (Nat × ℚ × Bool)) (act : bAction),
      (keyChannelsPass group rna_path prop frame keytype flag exclude act items).1.total
        = ((items.filter fun it => it.2.2 && !decide (exclude = some it.1)).length : Int))
    ∧ (((insert_keyframe true true true ⟨[(("p", 1), newFCurve)], 0, 0, false⟩ none
        "p" 0 PropType.float [10, 20, 30] [true, true, true] true 5
        KeyframeType.keyframe
        ⟨false, false, true, false, false, false⟩).1.get_count SUCCESS = 3)
      ∧ ((insert_keyframe true true true ⟨[(("p", 1), newFCurve)], 0, 0, false⟩ none
        "p" 0 PropType.float [10, 20, 30] [true, true, true] true 5
        KeyframeType.keyframe
        ⟨false, false, true, false, false, false⟩).1.get_count CANNOT_CREATE_FCURVE = 1)
      ∧ ((insert_keyframe true true true ⟨[(("p", 1), newFCurve)], 0, 0, false⟩ none
        "p" 0 PropType.float [10, 20, 30] [true, true, true] true 5
        KeyframeType.keyframe
        ⟨false, false, true, false, false, false⟩).2.2 = 3)
      ∧ ((action_fcurve_find (insert_keyframe true true true
          ⟨[(("p", 1), newFCurve)], 0, 0, false⟩ none
          "p" 0 PropType.float [10, 20, 30] [true, true, true] true 5
          KeyframeType.keyframe
          ⟨false, false, true, false, false, false⟩).2.1 "p" 0).map (fun f => f.bezt)
        = some [⟨5, 10, KeyframeType.keyframe⟩])
      ∧ ((action_fcurve_find (insert_keyframe true true true
          ⟨[(("p", 1), newFCurve)], 0, 0, false⟩ none
          "p" 0 PropType.float [10, 20, 30] [true, true, true] true 5
          KeyframeType.keyframe
          ⟨false, false, true, false, false, false⟩).2.1 "p" 1).map (fun f => f.bezt)
        = some [⟨5, 20, KeyframeType.keyframe⟩])
      ∧ ((action_fcurve_find (insert_keyframe true true true
          ⟨[(("p", 1), newFCurve)], 0, 0, false⟩ none
          "p" 0 PropType.float [10, 20, 30] [true, true, true] true 5
          KeyframeType.keyframe
          ⟨false, false, true, false, false, false⟩).2.1 "p" 2).map (fun f => f.bezt)
        = some [⟨5, 30, KeyframeType.keyframe⟩])) :=
  ⟨fun group rna_path prop frame keytype flag items act =>
    forceAllFirstPass_stops_at_first_success group rna_path prop frame keytype
      flag items act,
   fun group rna_path prop frame keytype flag exclude items act =>
    keyChannelsPass_total group rna_path prop frame keytype flag exclude items act,
   rfl, rfl, rfl, rfl, rfl, rfl⟩

/-- Claim C9: in the legacy single-path orchestrator `insert_keyframe`, a
channel rejected by the NLA remap mask is skipped silently — the force-all
first pass and the plain per-channel loop behave exactly as if the channel
had not existed — and an explicit array index that is out of range or
masked records no outcome at all; whereas the batch legacy loop
(`insert_key_legacy_action`) records exactly one
`UNABLE_TO_INSERT_TO_NLA_STACK` outcome for a masked-out channel. -/
theorem claim_C9 :
    (∀ (group : Option String) (rna_path : String) (prop : PropType) (frame : ℚ)
        (keytype : KeyframeType) (flag : InsertKeyFlags) (i : Nat) (v : ℚ)
        (pre post : List (Nat × ℚ × Bool)) (act : bAction),
      forceAllFirstPass group rna_path prop frame keytype flag act
          (pre ++ (i, v, false) :: post)
        = forceAllFirstPass group rna_path prop frame keytype flag act (pre ++ post))
    ∧ (∀ (group : Option String) (rna_path : String) (prop : PropType) (frame : ℚ)
        (keytype : KeyframeType) (flag : InsertKeyFlags) (exclude : Option Nat)
        (i : Nat) (v : ℚ) (pre post : List (Nat × ℚ × Bool)) (act : bAction),
      keyChannelsPass group rna_path prop frame keytype flag exclude act
          (pre ++ (i, v, false) :: post)
        = keyChannelsPass group rna_path prop frame keytype flag exclude act
            (pre ++ post))
    ∧ (∀ (act : bAction) (group : Option String) (rna_path : String)
        (array_index : Int) (prop : PropType) (values : List ℚ)
        (successful_remaps : List Bool) (frame : ℚ) (keytype : KeyframeType)
        (flag : InsertKeyFlags),
      array_index ≠ -1 →
      (array_index < 0 ∨ (values.length : Int) ≤ array_index ∨
        successful_remaps.getD array_index.toNat false = false) →
      insert_keyframe true true true act group rna_path array_index prop values
          successful_remaps false frame keytype flag
        = (CombinedKeyingResult.empty, act, 0))
    ∧ (∀ (group : Option String) (rna_path : String) (prop : PropType) (frame : ℚ)
        (keytype : KeyframeType) (flag : InsertKeyFlags) (i : Nat) (v : ℚ)
        (pre post : List (Nat × ℚ × Bool)) (act : bAction) (k : SingleKeyingResult),
      (legacyChannelLoop group rna_path prop frame keytype flag act
          (pre ++ (i, v, false) :: post)).1.get_count k
        = (legacyChannelLoop group rna_path prop frame keytype flag act
            (pre ++ post)).1.get_count k
          + (if k = UNABLE_TO_INSERT_TO_NLA_STACK then 1 else 0)) :=
  ⟨fun group rna_path prop frame keytype flag i v pre post act =>
    forceAllFirstPass_skip_masked group rna_path prop frame keytype flag i v pre post act,
   fun group rna_path prop frame keytype flag exclude i v pre post act =>
    keyChannelsPass_skip_masked group rna_path prop frame keytype flag exclude i v
      pre post act,
   fun act group rna_path array_index prop values successful_remaps frame keytype
      flag hne h =>
    insert_keyframe_single_index_skip act group rna_path array_index prop values
      successful_remaps frame keytype flag hne h,
   fun group rna_path prop frame keytype flag i v pre post act k =>
    (legacyChannelLoop_masked_channel group rna_path prop frame keytype flag i v
      pre post act k).1⟩

/-- Witness for C9 at concrete inputs: a masked channel is skipped silently
by the plain loop, a single out-of-range index produces an empty aggregate,
and the batch legacy loop turns the same masked channel into one
`UNABLE_TO_INSERT_TO_NLA_STACK`. -/
theorem claim_C9_witness :
    (keyChannelsPass none "p" PropType.float 1 KeyframeType.keyframe
        ⟨false, false, false, false, false, false⟩ none ⟨[], 0, 0, false⟩
        ([] ++ (0, 7, false) :: [])
      = keyChannelsPass none "p" PropType.float 1 KeyframeType.keyframe
        ⟨false, false, false, false, false, false⟩ none ⟨[], 0, 0, false⟩ ([] ++ []))
    ∧ ((2 : Int) ≠ -1)
    ∧ (insert_keyframe true true true ⟨[], 0, 0, false⟩ none "p" 2 PropType.float
        [7] [true] false 1 KeyframeType.keyframe
        ⟨false, false, false, false, false, false⟩
      = (CombinedKeyingResult.empty, ⟨[], 0, 0, false⟩, 0))
    ∧ ((legacyChannelLoop none "p" PropType.float 1 KeyframeType.keyframe
        ⟨false, false, false, false, false, false⟩ ⟨[], 0, 0, false⟩
        ([] ++ (0, 7, false) :: [])).1.get_count UNABLE_TO_INSERT_TO_NLA_STACK
      = (legacyChannelLoop none "p" PropType.float 1 KeyframeType.keyframe
        ⟨false, false, false, false, false, false⟩ ⟨[], 0, 0, false⟩
        ([] ++ [])).1.get_count UNABLE_TO_INSERT_TO_NLA_STACK + 1) := by
  refine ⟨claim_C9.2.1 none "p" PropType.float 1 KeyframeType.keyframe _ none 0 7 [] [] _,
    by decide, claim_C9.2.2.1 _ none "p" 2 PropType.float [7] [true] 1
      KeyframeType.keyframe _ (by decide) (by norm_num), ?_⟩
  have h := claim_C9.2.2.2 none "p" PropType.float 1 KeyframeType.keyframe
    ⟨false, false, false, false, false, false⟩ 0 7 [] [] ⟨[], 0, 0, false⟩
    UNABLE_TO_INSERT_TO_NLA_STACK
  simpa using h

/-- Claim C4, amended: the layered insertion path notifies the dependency
system exactly once, at the end of the call, on every call — the
notification is unconditional, and in particular does not depend on whether
any key was written. -/
theorem claim_C4 (env : RNAPath → Option PathData) (strip : KeyframeStrip)
    (scene_frame : ℚ) (keytype : KeyframeType) (flag : InsertKeyFlags)
    (rna_paths : List RNAPath) :
    (insert_key_layered_action env strip scene_frame keytype flag rna_paths).2.2
      = 1 :=
  rfl

/-- Counterexample to C4 as stated: a call whose single path fails to
resolve writes no key (zero successes, no curve state change) and still
issues one dependency-system notification; so "no keys written implies no
notification" is false on the code. -/
theorem claim_C4_counterexample :
    ¬((insert_key_layered_action (fun _ => none) ⟨[]⟩ 1 KeyframeType.keyframe
        ⟨false, false, false, false, false, false⟩
        [⟨"rotation_euler", none⟩]).1.get_count SUCCESS ≤ 0 →
      (insert_key_layered_action (fun _ => none) ⟨[]⟩ 1 KeyframeType.keyframe
        ⟨false, false, false, false, false, false⟩
        [⟨"rotation_euler", none⟩]).2.2 = 0) := by
  intro h
  have h0 : (insert_key_layered_action (fun _ => none) ⟨[]⟩ 1 KeyframeType.keyframe
      ⟨false, false, false, false, false, false⟩
      [⟨"rotation_euler", none⟩]).1.get_count SUCCESS ≤ 0 := by
    rw [show (insert_key_layered_action (fun _ => none) ⟨[]⟩ 1 KeyframeType.keyframe
      ⟨false, false, false, false, false, false⟩
      [⟨"rotation_euler", none⟩]).1.get_count SUCCESS = 0 from rfl]
  have h1 := h h0
  rw [show (insert_key_layered_action (fun _ => none) ⟨[]⟩ 1 KeyframeType.keyframe
      ⟨false, false, false, false, false, false⟩
      [⟨"rotation_euler", none⟩]).2.2 = 1 from rfl] at h1
  cases h1

/-- Claim C5: in both the layered and the legacy batch insertion paths, a
path whose property resolution fails contributes exactly one
`CANNOT_RESOLVE_PATH` outcome, and the per-kind counts and the final curve
state are exactly those of the batch without the failing path. -/
theorem claim_C5 :
    (∀ (env : RNAPath → Option PathData) (frame : ℚ) (keytype : KeyframeType)
        (flag : InsertKeyFlags) (p : RNAPath), env p = none →
      ∀ (pre post : List RNAPath) (strip : KeyframeStrip) (k : SingleKeyingResult),
        ((layeredPathLoop env frame keytype flag strip (pre ++ p :: post)).1.get_count k
          = (layeredPathLoop env frame keytype flag strip (pre ++ post)).1.get_count k
            + if k = CANNOT_RESOLVE_PATH then 1 else 0)
        ∧ (layeredPathLoop env frame keytype flag strip (pre ++ p :: post)).2
          = (layeredPathLoop env frame keytype flag strip (pre ++ post)).2)
    ∧ (∀ (env : RNAPath → Option PathData) (group : Option String) (nla_frame : ℚ)
        (flag : InsertKeyFlags) (keytype : KeyframeType) (p : RNAPath),
        env p = none →
      ∀ (pre post : List RNAPath) (act : bAction) (k : SingleKeyingResult),
        ((insert_key_rna_legacy_paths env group nla_frame flag keytype act
            (pre ++ p :: post)).1.get_count k
          = (insert_key_rna_legacy_paths env group nla_frame flag keytype act
              (pre ++ post)).1.get_count k
            + if k = CANNOT_RESOLVE_PATH then 1 else 0)
        ∧ (insert_key_rna_legacy_paths env group nla_frame flag keytype act
            (pre ++ p :: post)).2
          = (insert_key_rna_legacy_paths env group nla_frame flag keytype act
              (pre ++ post)).2) :=
  ⟨fun env frame keytype flag p hp pre post strip k =>
    layeredPathLoop_unresolved env frame keytype flag p hp pre post strip k,
   fun env group nla_frame flag keytype p hp pre post act k =>
    insert_key_rna_legacy_paths_unresolved env group nla_frame flag keytype p hp
      pre post act k⟩

/-- Witness for C5: in a two-path legacy batch whose second path does not
resolve, the failing path adds exactly one `CANNOT_RESOLVE_PATH` and leaves
the action exactly as the one-path batch leaves it. -/
theorem claim_C5_witness :
    ((fun q => if q.path = "bad" then none
      else some (⟨[7], [true], PropType.float, "ok"⟩ : PathData))
        (⟨"bad", none⟩ : RNAPath) = none)
    ∧ ((insert_key_rna_legacy_paths
        (fun q => if q.path = "bad" then none
          else some (⟨[7], [true], PropType.float, "ok"⟩ : PathData))
        none 1 ⟨false, false, false, false, false, false⟩ KeyframeType.keyframe
        ⟨[], 0, 0, false⟩
        ([⟨"ok", none⟩] ++ (⟨"bad", none⟩ : RNAPath) :: [])).1.get_count
          CANNOT_RESOLVE_PATH
      = (insert_key_rna_legacy_paths
        (fun q => if q.path = "bad" then none
          else some (⟨[7], [true], PropType.float, "ok"⟩ : PathData))
        none 1 ⟨false, false, false, false, false, false⟩ KeyframeType.keyframe
        ⟨[], 0, 0, false⟩
        ([⟨"ok", none⟩] ++ [])).1.get_count CANNOT_RESOLVE_PATH
        + if CANNOT_RESOLVE_PATH = CANNOT_RESOLVE_PATH then 1 else 0)
    ∧ ((insert_key_rna_legacy_paths
        (fun q => if q.path = "bad" then none
          else some (⟨[7], [true], PropType.float, "ok"⟩ : PathData))
        none 1 ⟨false, false, false, false, false, false⟩ KeyframeType.keyframe
        ⟨[], 0, 0, false⟩
        ([⟨"ok", none⟩] ++ (⟨"bad", none⟩ : RNAPath) :: [])).2
      = (insert_key_rna_legacy_paths
        (fun q => if q.path = "bad" then none
          else some (⟨[7], [true], PropType.float, "ok"⟩ : PathData))
        none 1 ⟨false, false, false, false, false, false⟩ KeyframeType.keyframe
        ⟨[], 0, 0, false⟩
        ([⟨"ok", none⟩] ++ [])).2) := by
  have hp : (fun (q : RNAPath) => if q.path = "bad" then none
      else some (⟨[7], [true], PropType.float, "ok"⟩ : PathData))
        (⟨"bad", none⟩ : RNAPath) = none := by simp
  have h := claim_C5.2
    (fun q => if q.path = "bad" then none
      else some (⟨[7], [true], PropType.float, "ok"⟩ : PathData))
    none 1 ⟨false, false, false, false, false, false⟩ KeyframeType.keyframe
    ⟨"bad", none⟩ hp [⟨"ok", none⟩] [] ⟨[], 0, 0, false⟩ CANNOT_RESOLVE_PATH
  exact ⟨hp, h.1, h.2⟩

/-- Claim C8 evaluated at the failing input: with one extracted value (so a
one-bit remap mask) and a curve whose `array_index` is 1, the guarded value
read falls back to 0 but the unguarded bitmask read
`successful_remaps[index]` is out of bounds. -/
theorem claim_C8 :
    insert_keyframe_direct_core 1 [(5 : ℚ)] [true] = (0, none)
    ∧ bitvector_get [true] 1 = none :=
  ⟨rfl, rfl⟩
